import Mathlib

set_option maxRecDepth 8000

/-!
# Payment reconciliation subsystem of the Telegram Mini App backend

A shallow embedding of the payment-related request handlers of the
repository, which contains several near-duplicate revisions of the same
Express backend:

* namespace `P4` models `src/unnamed/part_004` (SHA-256 signed Tinkoff
  webhook, stub records for unmatched notifications, cancel and refund
  endpoints without status checks);
* namespace `P2` models `src/unnamed/part_002` (CRC-32 signed webhook with
  a token-presence guard, idempotency keys on create, cancel and refund
  with local status checks);
* namespace `IJ` models the first revision contained in `src/index.js`
  (unsigned `/payments/callback`).

Modelling conventions, used throughout:

* JS numbers that hold money are modelled as `Rat`; gateway amounts in
  kopecks are `Int` (they are integral in every payload the handlers
  build or read); `Math.round` is Mathlib `round`, `Math.max` is `max`.
* JS objects used as string-keyed maps (`db.users`, `db.orders` in
  part_004) are association lists `List (String × _)` with the object
  semantics: lookup finds the first binding, assignment replaces the
  first binding in place or appends a fresh one.
* Timestamps (`new Date().toISOString()`, `Date.now()`) are an abstract
  clock value `now : Nat` passed to each handler.
* `fetch` calls to the Tinkoff gateway are modelled by an oracle response
  passed in by the caller; every handler additionally returns the list of
  gateway calls it performed, so that claims about contacting the gateway
  can be stated.  Fire-and-forget Telegram notifications, console logging
  and the periodic JSON snapshot have no observable effect on the store
  and are not modelled.
* part_004 signs with `crypto.createHash("sha256")` over the
  concatenation of the values of the payload (minus `Token`, plus
  `Password`) sorted by key.  The handlers use the digest only through
  string equality, so the digest is modelled as its own input string (the
  sorted concatenation itself); no theorem below relies on the model
  being injective.  part_002 signs with a hand-rolled CRC-32, which is
  implemented bit-for-bit below.
* Notification bodies are modelled with the fields the handlers read:
  `TerminalKey`, `OrderId`, `Status`, `PaymentId`, `Amount`, `Token`.
  `Option` encodes a JSON field that may be absent (JS `undefined`).
-/

/-- JS truthiness of an optional string: `undefined` and the empty string
are falsy. -/
def jsTruthy : Option String → Bool
  | none => false
  | some s => !(s == "")

/-- JS `a || b` for an optional string `a` and a string default `b`. -/
def jsOr (a : Option String) (b : String) : String :=
  match a with
  | some s => if s == "" then b else s
  | none => b

/-- JS `String(x)` where `x` may be `undefined`. -/
def jsString : Option String → String
  | some s => s
  | none => "undefined"

/-- JS truthiness of an optional number: `undefined` and `0` are falsy. -/
def jsNumTruthy : Option Int → Bool
  | none => false
  | some a => !(a == 0)

/-- JS `toUpperCase`, modelled as the character-wise ASCII uppercase map
(the statuses this backend compares are ASCII). -/
def jsToUpper (s : String) : String :=
  { data := s.data.map Char.toUpper }

/-- Lookup in a JS object modelled as an association list: first binding
for the key. -/
def lookupStr {α : Type} (m : List (String × α)) (k : String) : Option α :=
  (m.find? (fun kv => kv.1 == k)).map (fun kv => kv.2)

/-- Assignment `m[k] = v` on a JS object modelled as an association list:
replace the first binding in place, or append a fresh one. -/
def updateStr {α : Type} (m : List (String × α)) (k : String) (v : α) :
    List (String × α) :=
  match m.enum.find? (fun ikv => ikv.2.1 == k) with
  | some ikv => m.set ikv.1 (k, v)
  | none => m ++ [(k, v)]

/-- One entry of the CRC-32 lookup table built by part_002
(polynomial 0xEDB88320), computed directly: eight conditional
shift-or-xor steps. -/
def crcTableEntry (n : Nat) : Nat :=
  let step := fun (c : Nat) =>
    if c % 2 = 1 then Nat.xor 0xEDB88320 (c / 2) else c / 2
  step (step (step (step (step (step (step (step n)))))))

/-- The `crc32str` function of part_002: CRC-32 of the UTF-16 code units
of the string (taken modulo 256 exactly as `charCodeAt(i) & 0xff` after
the xor), on the unsigned 32-bit view of the JS signed arithmetic. -/
def crc32str (s : String) : Nat :=
  let upd := fun (crc : Nat) (ch : Char) =>
    Nat.xor (crcTableEntry (Nat.xor crc ch.toNat % 256)) (crc / 256)
  Nat.xor (s.data.foldl upd 0xFFFFFFFF) 0xFFFFFFFF

/-- A gateway notification body, with the fields the handlers read.
`Amount` is in kopecks. -/
structure NotifyBody where
  TerminalKey : Option String := none
  OrderId : Option String := none
  Status : Option String := none
  PaymentId : Option String := none
  Amount : Option Int := none
  Token : Option String := none
  deriving DecidableEq

/-- Response to a webhook or other endpoint, reduced to the fields the
claims mention: the HTTP status and the `success` boolean of the JSON
body. -/
structure Resp where
  status : Nat
  success : Bool
  deriving DecidableEq

/-- A call made to the external Tinkoff gateway (the `fetch` targets of
the handlers), with the fields that identify the submitted operation. -/
inductive GatewayCall where
  | init (amountKopecks : Int) (orderId : String)
  | cancel (paymentId : String)
  | refund (paymentId : String) (amountKopecks : Int)
  deriving DecidableEq

/-- The oracle modelling the gateway response to a `fetch`. -/
structure GwResp where
  success : Bool
  paymentURL : String := ""
  paymentId : Option String := none
  status : Option String := none
  deriving DecidableEq

namespace P4

/-- A user record of part_004.  `balance` carries the `|| 0` JS default,
so a record always has a numeric balance in the model.  The profile
fields not read by any payment handler (`joinDate`, `id`) are omitted. -/
structure User where
  balance : ℚ := 0
  username : String := ""
  firstName : String := ""
  lastName : String := ""
  avatarUrl : Option String := none
  level : Option String := none
  createdAt : Nat := 0
  updatedAt : Option Nat := none
  deriving DecidableEq

/-- One entry of a payment history list (part_004 webhook pushes the raw
gateway status unconditionally). -/
structure HistoryEntry where
  status : Option String
  rawStatus : Option String
  at_ : Nat
  deriving DecidableEq

/-- One refund record on a payment. -/
structure RefundEntry where
  amount : ℚ
  at_ : Nat
  deriving DecidableEq

/-- A payment record of part_004.  `refunds` starts empty rather than
absent (the source creates the list on first use).  Line items of the
associated order are opaque to every payment handler and omitted. -/
structure Payment where
  id : String
  telegramId : Option String
  amount : ℚ
  status : String
  createdAt : Nat
  paymentUrl : Option String := none
  tinkoffPaymentId : Option String := none
  history : List HistoryEntry := []
  refunds : List RefundEntry := []
  completedAt : Option Nat := none
  canceledAt : Option Nat := none
  source : String := "telegram_mini_app"
  deriving DecidableEq

/-- An order record of part_004 (`db.orders` is an object keyed by
orderId there). -/
structure Order where
  orderId : String
  telegramId : String
  total : ℚ
  status : String
  createdAt : Nat
  source : String := "telegram_mini_app"
  deriving DecidableEq

/-- The part_004 in-memory store, restricted to the collections the
payment subsystem touches (carts and reviews are untouched by it). -/
structure Db where
  users : List (String × User) := []
  orders : List (String × Order) := []
  payments : List Payment := []
  deriving DecidableEq

/-- The `createTinkoffToken` of part_004 applied to a notification body:
values of the body minus `Token`, plus `Password`, sorted by key
(`Amount`, `OrderId`, `Password`, `PaymentId`, `Status`, `TerminalKey`)
and concatenated; an absent field contributes nothing, exactly as a key
absent from `Object.keys`.  The SHA-256 digest of this string is
modelled as the string itself (see the file header). -/
def createTinkoffToken (b : NotifyBody) (password : String) : String :=
  (match b.Amount with | some a => toString a | none => "")
    ++ (match b.OrderId with | some s => s | none => "")
    ++ password
    ++ (match b.PaymentId with | some s => s | none => "")
    ++ (match b.Status with | some s => s | none => "")
    ++ (match b.TerminalKey with | some s => s | none => "")

/-- Payment lookup of the part_004 webhook: first by `p.id === OrderId`,
then by `p.tinkoffPaymentId === PaymentId` (JS strict equality, under
which two absent values are equal).  Returns the index together with the
record. -/
def findPayment? (ps : List Payment) (data : NotifyBody) :
    Option (Nat × Payment) :=
  match ps.enum.find? (fun ip => some ip.2.id == data.OrderId) with
  | some ip => some ip
  | none => ps.enum.find? (fun ip => ip.2.tinkoffPaymentId == data.PaymentId)

/-- The stub payment the part_004 webhook creates for an unmatched
notification. -/
def stubPayment (now : Nat) (data : NotifyBody) : Payment :=
  { id := jsOr data.OrderId ("p-" ++ jsString data.PaymentId)
    telegramId := none
    amount := match data.Amount with
      | some a => if a == 0 then 0 else (a : ℚ) / 100
      | none => 0
    status := jsOr data.Status "UNKNOWN"
    createdAt := now
    tinkoffPaymentId := data.PaymentId
    history := [] }

/-- Result of applying a notification status to one payment: the updated
payment together with the updated users and orders stores. -/
structure StepOut where
  payment : Payment
  users : List (String × User)
  orders : List (String × Order)
  deriving DecidableEq

/-- The status switch of the part_004 webhook, applied to the payment the
notification resolved to.  The history entry is pushed unconditionally
before the switch; the credit on `CONFIRMED` and the debit on `REFUNDED`
happen only when the payment has a truthy `telegramId` with an existing
user record and the notification `Amount` is truthy. -/
def applyStatus (now : Nat) (data : NotifyBody)
    (users : List (String × User)) (orders : List (String × Order))
    (p0 : Payment) : StepOut :=
  let p : Payment := { p0 with history := p0.history ++
      [{ status := data.Status, rawStatus := data.Status, at_ := now }] }
  let userKey : Option String :=
    match p.telegramId with
    | some t => if t == "" then none else some t
    | none => none
  let amountOk : Bool := jsNumTruthy data.Amount
  let delta : ℚ := match data.Amount with | some a => (a : ℚ) / 100 | none => 0
  match data.Status with
  | some "NEW" =>
      { payment := { p with status := "NEW" }
        users := users
        orders := match lookupStr orders p.id with
          | some o => updateStr orders p.id { o with status := "CREATED" }
          | none => orders }
  | some "CONFIRMED" =>
      { payment := { p with status := "CONFIRMED", completedAt := some now }
        users :=
          match userKey with
          | some tid =>
              match lookupStr users tid with
              | some u =>
                  if amountOk then
                    updateStr users tid
                      { u with balance := u.balance + delta,
                               updatedAt := some now }
                  else users
              | none => users
          | none => users
        orders := match lookupStr orders p.id with
          | some o => updateStr orders p.id { o with status := "COMPLETED" }
          | none => orders }
  | some "REJECTED" =>
      { payment := { p with status := "REJECTED" }
        users := users
        orders := match lookupStr orders p.id with
          | some o => updateStr orders p.id { o with status := "REJECTED" }
          | none => orders }
  | some "CANCELED" =>
      { payment := { p with status := "CANCELED" }
        users := users
        orders := match lookupStr orders p.id with
          | some o => updateStr orders p.id { o with status := "CANCELED" }
          | none => orders }
  | some "REFUNDED" =>
      let refundEntry : RefundEntry :=
        { amount := match data.Amount with
            | some a => if a == 0 then 0 else (a : ℚ) / 100
            | none => 0
          at_ := now }
      { payment := { p with status := "REFUNDED"
                            refunds := p.refunds ++ [refundEntry] }
        users :=
          match userKey with
          | some tid =>
              match lookupStr users tid with
              | some u =>
                  if amountOk then
                    updateStr users tid
                      { u with balance := max 0 (u.balance - delta),
                               updatedAt := some now }
                  else users
              | none => users
          | none => users
        orders := match lookupStr orders p.id with
          | some o => updateStr orders p.id { o with status := "REFUNDED" }
          | none => orders }
  | _ =>
      { payment := { p with status := jsOr data.Status p.status }
        users := users
        orders := orders }

/-- Result of a webhook handler: the new store and the HTTP response. -/
structure WebhookOut where
  db : Db
  resp : Resp
  deriving DecidableEq

/-- The `POST /payments/webhook` handler of part_004.  The token is the
digest over the body minus `Token`; a missing, empty or mismatched token
is answered with HTTP 200 and `success := false` without touching the
store.  An unmatched notification creates a stub payment; the status
switch is `applyStatus`. -/
def webhook (password : String) (now : Nat) (db : Db) (data : NotifyBody) :
    WebhookOut :=
  let expectedToken := createTinkoffToken data password
  let tokenOk : Bool :=
    match data.Token with
    | none => false
    | some t => !(t == "") && t == expectedToken
  if tokenOk then
    match findPayment? db.payments data with
    | some ip =>
        let step := applyStatus now data db.users db.orders ip.2
        { db := { users := step.users, orders := step.orders,
                  payments := db.payments.set ip.1 step.payment }
          resp := { status := 200, success := true } }
    | none =>
        let step := applyStatus now data db.users db.orders
          (stubPayment now data)
        { db := { users := step.users, orders := step.orders,
                  payments := db.payments ++ [step.payment] }
          resp := { status := 200, success := true } }
  else
    { db := db, resp := { status := 200, success := false } }

/-- Balance of a user in a part_004 store, if the user exists. -/
def balanceOf (db : Db) (tid : String) : Option ℚ :=
  (lookupStr db.users tid).map (fun u => u.balance)

/-- Status of a payment in a part_004 store, if the payment exists. -/
def statusOf (db : Db) (pid : String) : Option String :=
  (db.payments.find? (fun p => p.id == pid)).map (fun p => p.status)

/-- Completion timestamp of a payment in a part_004 store. -/
def completedAtOf (db : Db) (pid : String) : Option (Option Nat) :=
  (db.payments.find? (fun p => p.id == pid)).map (fun p => p.completedAt)

/-- Request body of `POST /payments/create` in part_004 (line items are
opaque to the handler and omitted). -/
structure CreateReq where
  telegramId : Option String := none
  amount : Option ℚ := none
  source : Option String := none
  deriving DecidableEq

/-- Response of the create endpoint. -/
structure CreateResp where
  status : Nat
  success : Bool
  paymentId : Option String := none
  paymentUrl : Option String := none
  deriving DecidableEq

/-- Result of the create endpoint: store, response, gateway calls. -/
structure CreateOut where
  db : Db
  resp : CreateResp
  calls : List GatewayCall
  deriving DecidableEq

/-- The `POST /payments/create` handler of part_004: validates the
amount, ensures the user exists, and reuses an existing `NEW` or
`PENDING` payment of the same user with the same amount (its own
idempotency rule; no client-supplied key is read); otherwise creates the
order, submits Init to the gateway, and records the payment on success.
`terminalKey` models the `TINKOFF_TERMINAL_KEY` environment variable,
`gw` the gateway response. -/
def create (terminalKey : Option String) (now : Nat) (db : Db)
    (req : CreateReq) (gw : GwResp) : CreateOut :=
  let tid := jsOr req.telegramId ""
  let amount : ℚ := match req.amount with | some a => a | none => 0
  if jsTruthy req.telegramId = false ∨ req.amount = none ∨ amount = 0 ∨
      amount < 10 then
    { db := db, resp := { status := 400, success := false }, calls := [] }
  else if !(jsTruthy terminalKey) then
    { db := db, resp := { status := 500, success := false }, calls := [] }
  else
    let users0 := match lookupStr db.users tid with
      | some _ => db.users
      | none => updateStr db.users tid { balance := 0, createdAt := now }
    let db0 : Db := { db with users := users0 }
    match db.payments.find? (fun p =>
        p.telegramId == some tid && decide (p.amount = amount) &&
        (p.status == "NEW" || p.status == "PENDING")) with
    | some existing =>
        { db := db0
          resp := { status := 200, success := true,
                    paymentId := some existing.id,
                    paymentUrl := existing.paymentUrl }
          calls := [] }
    | none =>
        let orderId := "tg-" ++ tid ++ "-" ++ toString now
        let newOrder : Order :=
          { orderId := orderId, telegramId := tid, total := amount,
            status := "CREATED", createdAt := now,
            source := jsOr req.source "telegram_mini_app" }
        let db1 : Db := { db0 with
          orders := updateStr db0.orders orderId newOrder }
        let calls := [GatewayCall.init (round (amount * 100)) orderId]
        if gw.success then
          let payment : Payment :=
            { id := orderId, telegramId := some tid, amount := amount,
              status := "NEW", createdAt := now,
              paymentUrl := some gw.paymentURL,
              tinkoffPaymentId := gw.paymentId,
              history := [{ status := some "NEW",
                            rawStatus := some (jsOr gw.status "NEW"),
                            at_ := now }],
              source := jsOr req.source "telegram_mini_app" }
          { db := { db1 with payments := db1.payments ++ [payment] }
            resp := { status := 200, success := true,
                      paymentId := some orderId,
                      paymentUrl := some gw.paymentURL }
            calls := calls }
        else
          { db := db1, resp := { status := 500, success := false },
            calls := calls }

/-- Result of the cancel and refund endpoints. -/
structure ActionOut where
  db : Db
  resp : Resp
  calls : List GatewayCall
  deriving DecidableEq

/-- Payment lookup shared by the part_004 cancel and refund endpoints:
by `p.id`, then by `String(p.tinkoffPaymentId)`. -/
def findByParam? (ps : List Payment) (paymentId : String) :
    Option (Nat × Payment) :=
  match ps.enum.find? (fun ip => ip.2.id == paymentId) with
  | some ip => some ip
  | none => ps.enum.find? (fun ip => jsString ip.2.tinkoffPaymentId == paymentId)

/-- The `POST /payments/:paymentId/cancel` handler of part_004: looks the
payment up, requires a truthy `tinkoffPaymentId`, and submits Cancel to
the gateway without any check of the payment status; on gateway success
it marks the payment and order `CANCELED`. -/
def cancel (now : Nat) (db : Db) (paymentId : String) (gw : GwResp) :
    ActionOut :=
  match findByParam? db.payments paymentId with
  | none => { db := db, resp := { status := 404, success := false }, calls := [] }
  | some ip =>
      if !(jsTruthy ip.2.tinkoffPaymentId) then
        { db := db, resp := { status := 404, success := false }, calls := [] }
      else
        let calls := [GatewayCall.cancel (jsString ip.2.tinkoffPaymentId)]
        if gw.success then
          let p1 : Payment := { ip.2 with status := "CANCELED",
                                          canceledAt := some now }
          let orders1 := match lookupStr db.orders ip.2.id with
            | some o => updateStr db.orders ip.2.id { o with status := "CANCELED" }
            | none => db.orders
          { db := { db with orders := orders1,
                            payments := db.payments.set ip.1 p1 }
            resp := { status := 200, success := true }, calls := calls }
        else
          { db := db, resp := { status := 500, success := false },
            calls := calls }

/-- The `POST /payments/:paymentId/refund` handler of part_004: the
refund amount defaults to the full payment amount, only positivity is
checked (no cap against the payment amount or prior refunds, and no
status check); on gateway success it appends a refund record, marks the
payment `REFUNDED` and debits the user with a floor at zero. -/
def refund (now : Nat) (db : Db) (paymentId : String) (amount : Option ℚ)
    (gw : GwResp) : ActionOut :=
  match findByParam? db.payments paymentId with
  | none => { db := db, resp := { status := 404, success := false }, calls := [] }
  | some ip =>
      if !(jsTruthy ip.2.tinkoffPaymentId) then
        { db := db, resp := { status := 404, success := false }, calls := [] }
      else
        let refundAmount : ℚ := match amount with
          | some a => if a = 0 then ip.2.amount else a
          | none => ip.2.amount
        if refundAmount ≤ 0 then
          { db := db, resp := { status := 400, success := false }, calls := [] }
        else
          let calls := [GatewayCall.refund (jsString ip.2.tinkoffPaymentId)
            (round (refundAmount * 100))]
          if gw.success then
            let newRefund : RefundEntry := { amount := refundAmount, at_ := now }
            let p1 : Payment := { ip.2 with status := "REFUNDED"
                                            refunds := ip.2.refunds ++ [newRefund] }
            let orders1 := match lookupStr db.orders ip.2.id with
              | some o => updateStr db.orders ip.2.id { o with status := "REFUNDED" }
              | none => db.orders
            let users1 :=
              match (match ip.2.telegramId with
                     | some t => if t == "" then none else some t
                     | none => none) with
              | some tid =>
                  match lookupStr db.users tid with
                  | some u => updateStr db.users tid
                      { u with balance := max 0 (u.balance - refundAmount),
                               updatedAt := some now }
                  | none => db.users
              | none => db.users
            { db := { users := users1, orders := orders1,
                      payments := db.payments.set ip.1 p1 }
              resp := { status := 200, success := true }, calls := calls }
          else
            { db := db, resp := { status := 500, success := false },
              calls := calls }

/-- Request body of `POST /users` (the public profile-sync endpoint) in
part_004.  The client may supply a `balance` field, which the handler
stores verbatim. -/
structure UserBody where
  telegramId : Option String := none
  id : Option String := none
  username : Option String := none
  firstName : Option String := none
  lastName : Option String := none
  avatarUrl : Option String := none
  level : Option String := none
  balance : Option ℚ := none
  deriving DecidableEq

/-- Result of a store-and-respond endpoint without gateway calls. -/
structure UsersOut where
  db : Db
  resp : Resp
  deriving DecidableEq

/-- JS `a || b` on two optional strings. -/
def jsOrO (a b : Option String) : Option String :=
  if jsTruthy a then a else b

/-- The `POST /users` handler of part_004: upserts the profile;
a client-supplied `balance` overwrites the stored balance verbatim
(`userData.balance !== undefined ? userData.balance : existing`). -/
def postUsers (now : Nat) (db : Db) (body : UserBody) : UsersOut :=
  let tid := jsOr body.telegramId (jsOr body.id "")
  if tid == "" then
    { db := db, resp := { status := 400, success := false } }
  else
    match lookupStr db.users tid with
    | some existing =>
        let u : User := { existing with
          balance := match body.balance with
            | some b => b
            | none => existing.balance
          username := jsOr body.username existing.username
          firstName := jsOr body.firstName existing.firstName
          lastName := jsOr body.lastName existing.lastName
          avatarUrl := jsOrO body.avatarUrl existing.avatarUrl
          level := jsOrO body.level (jsOrO existing.level (some "Юнга"))
          updatedAt := some now }
        { db := { db with users := updateStr db.users tid u }
          resp := { status := 200, success := true } }
    | none =>
        let u : User :=
          { balance := match body.balance with
              | some b => b
              | none => 0
            username := jsOr body.username ""
            firstName := jsOr body.firstName ""
            lastName := jsOr body.lastName ""
            avatarUrl := jsOrO body.avatarUrl none
            level := some "Юнга"
            createdAt := now }
        { db := { db with users := updateStr db.users tid u }
          resp := { status := 200, success := true } }

/-- The `POST /users/:telegramId/balance/add` handler of part_004:
creates the user when absent, rejects a missing or non-positive amount,
otherwise adds it to the balance. -/
def balanceAdd (now : Nat) (db : Db) (tid : String) (amount : Option ℚ) :
    UsersOut :=
  let users0 := match lookupStr db.users tid with
    | some _ => db.users
    | none => updateStr db.users tid { balance := 0, createdAt := now }
  match amount with
  | none =>
      { db := { db with users := users0 }
        resp := { status := 400, success := false } }
  | some a =>
      if a ≤ 0 then
        { db := { db with users := users0 }
          resp := { status := 400, success := false } }
      else
        match lookupStr users0 tid with
        | some u =>
            let u1 : User := { u with balance := u.balance + a,
                                      updatedAt := some now }
            { db := { db with users := updateStr users0 tid u1 }
              resp := { status := 200, success := true } }
        | none =>
            { db := { db with users := users0 }
              resp := { status := 200, success := true } }

/-- The `POST /users/:telegramId/balance/subtract` handler of part_004:
404 for an unknown user, 400 for a missing or non-positive amount, 400
when the balance is smaller than the amount, otherwise subtracts. -/
def balanceSubtract (db : Db) (tid : String) (amount : Option ℚ) :
    UsersOut :=
  match lookupStr db.users tid with
  | none => { db := db, resp := { status := 404, success := false } }
  | some u =>
      match amount with
      | none => { db := db, resp := { status := 400, success := false } }
      | some a =>
          if a ≤ 0 then
            { db := db, resp := { status := 400, success := false } }
          else if u.balance < a then
            { db := db, resp := { status := 400, success := false } }
          else
            let u1 : User := { u with balance := u.balance - a }
            { db := { db with users := updateStr db.users tid u1 }
              resp := { status := 200, success := true } }

/-- One inbound operation of the part_004 service, as far as the payment
subsystem and the balances are concerned. -/
inductive Op where
  | profileSync (body : UserBody)
  | notification (data : NotifyBody)
  | createTopUp (req : CreateReq) (gw : GwResp)
  | cancelPayment (paymentId : String) (gw : GwResp)
  | refundPayment (paymentId : String) (amount : Option ℚ) (gw : GwResp)
  | addBalance (tid : String) (amount : Option ℚ)
  | subtractBalance (tid : String) (amount : Option ℚ)
  deriving DecidableEq

/-- Effect of one operation on the part_004 store. -/
def applyOp (password : String) (terminalKey : Option String) (now : Nat)
    (db : Db) : Op → Db
  | .profileSync body => (postUsers now db body).db
  | .notification data => (webhook password now db data).db
  | .createTopUp req gw => (create terminalKey now db req gw).db
  | .cancelPayment pid gw => (cancel now db pid gw).db
  | .refundPayment pid amount gw => (refund now db pid amount gw).db
  | .addBalance tid amount => (balanceAdd now db tid amount).db
  | .subtractBalance tid amount => (balanceSubtract db tid amount).db

/-- Side condition on an operation: a profile sync does not supply a
negative balance, and a gateway notification does not report a negative
amount. -/
def opOk : Op → Bool
  | .profileSync body => match body.balance with
      | some b => decide (0 ≤ b)
      | none => true
  | .notification data => match data.Amount with
      | some a => decide (0 ≤ a)
      | none => true
  | _ => true

/-- Every user balance of the store is non-negative. -/
def dbNonNeg (db : Db) : Prop := ∀ kv ∈ db.users, 0 ≤ kv.2.balance

end P4

namespace P2

/-- A user record of part_002 (same profile-sync code as part_004; only
the balance matters to the payment handlers here). -/
structure User where
  balance : ℚ := 0
  createdAt : Nat := 0
  updatedAt : Option Nat := none
  deriving DecidableEq

/-- A payment record of part_002. -/
structure Payment where
  orderId : String
  paymentId : String
  telegramId : String
  amount : ℚ
  amountKopecks : Int := 0
  status : String
  paymentUrl : String
  createdAt : Nat
  updatedAt : Option Nat := none
  completedAt : Option Nat := none
  source : String := "telegram_mini_app"
  deriving DecidableEq

/-- An order record of part_002 (line items opaque and omitted). -/
structure Order where
  orderId : String
  telegramId : String
  totalAmount : ℚ
  status : String
  createdAt : Nat
  deriving DecidableEq

/-- A refund record in the part_002 `db.refunds` list. -/
structure RefundRecord where
  id : String
  orderId : String
  paymentId : String
  telegramId : String
  amount : ℚ
  createdAt : Nat
  deriving DecidableEq

/-- One audit entry of `db.paymentEvents`.  The contextual payload merged
into the entry is opaque to every later read and omitted; the event kind
and timestamp are kept. -/
structure PEvent where
  at_ : Nat
  event : String
  deriving DecidableEq

/-- The part_002 in-memory store.  In the source `db.orders` is
initialised as an object literal, but every payment handler uses it
exclusively as an array (`push`, `find`); the model adopts the array
shape those handlers are written against. -/
structure Db where
  users : List (String × User) := []
  orders : List Order := []
  payments : List Payment := []
  refunds : List RefundRecord := []
  paymentEvents : List PEvent := []
  deriving DecidableEq

/-- The `logPaymentEvent` helper of part_002: appends an audit entry and
truncates the log to its newest 3000 entries once it exceeds 5000. -/
def logPaymentEvent (db : Db) (now : Nat) (ev : String) : Db :=
  let es := db.paymentEvents ++ [{ at_ := now, event := ev }]
  { db with paymentEvents :=
      if 5000 < es.length then es.drop (es.length - 3000) else es }

/-- The `tinkoffNotificationToken` of part_002: CRC-32 (as `crc32str`)
of the values of every present, non-empty field other than `Token`,
sorted by key (`Amount`, `OrderId`, `PaymentId`, `Status`,
`TerminalKey`), concatenated, with the terminal password appended,
rendered in decimal as JS `String` does. -/
def tinkoffNotificationToken (b : NotifyBody) (password : String) : String :=
  let part := fun (o : Option String) => match o with
    | some s => s
    | none => ""
  toString (crc32str
    ((match b.Amount with | some a => toString a | none => "")
      ++ part b.OrderId ++ part b.PaymentId ++ part b.Status
      ++ part b.TerminalKey ++ password))

/-- Payment lookup of the part_002 webhook:
`p.orderId === body.OrderId || String(p.paymentId) === String(body.PaymentId)`. -/
def findPayment? (ps : List Payment) (body : NotifyBody) :
    Option (Nat × Payment) :=
  ps.enum.find? (fun ip =>
    some ip.2.orderId == body.OrderId ||
    ip.2.paymentId == jsString body.PaymentId)

/-- Mutation of the first order whose `orderId` matches, as the JS
`db.orders.find` followed by an in-place status write. -/
def setOrderStatus (os : List Order) (oid : String) (st : String) :
    List Order :=
  match os.enum.find? (fun io => io.2.orderId == oid) with
  | some io => os.set io.1 { io.2 with status := st }
  | none => os

/-- Result of a part_002 webhook handler. -/
structure WebhookOut where
  db : Db
  resp : Resp
  deriving DecidableEq

/-- The status switch shared verbatim by `POST /payments/webhook/tinkoff`
and `POST /payments/callback` of part_002, applied after the payment was
found: the payment status and the matching order status are overwritten
with the uppercased gateway status unconditionally, then `CONFIRMED`
credits and `REFUNDED` debits (floored at zero) the user if one exists,
and the corresponding audit event is logged. -/
def applyNotification (now : Nat) (db : Db) (body : NotifyBody)
    (ip : Nat × Payment) : Db :=
  let status := jsToUpper (jsOr body.Status "")
  let amountRub : ℚ :=
    let x : ℚ := match body.Amount with
      | some a => (a : ℚ) / 100
      | none => ip.2.amount
    if x = 0 then ip.2.amount else x
  let p1 : Payment := { ip.2 with updatedAt := some now, status := status }
  let orders1 := setOrderStatus db.orders ip.2.orderId status
  if status == "CONFIRMED" then
    let p2 : Payment := { p1 with completedAt := some now }
    let users1 := match lookupStr db.users ip.2.telegramId with
      | some u => updateStr db.users ip.2.telegramId
          { u with balance := u.balance + amountRub, updatedAt := some now }
      | none => db.users
    let db1 : Db := { db with users := users1, orders := orders1,
                              payments := db.payments.set ip.1 p2 }
    logPaymentEvent db1 now "CONFIRMED"
  else if status == "REJECTED" || status == "CANCELED" then
    let db1 : Db := { db with orders := orders1,
                              payments := db.payments.set ip.1 p1 }
    logPaymentEvent db1 now status
  else if status == "REFUNDED" then
    let users1 := match lookupStr db.users ip.2.telegramId with
      | some u => updateStr db.users ip.2.telegramId
          { u with balance := max 0 (u.balance - amountRub),
                   updatedAt := some now }
      | none => db.users
    let db1 : Db := { db with users := users1, orders := orders1,
                              payments := db.payments.set ip.1 p1 }
    logPaymentEvent db1 now "REFUNDED"
  else
    let db1 : Db := { db with orders := orders1,
                              payments := db.payments.set ip.1 p1 }
    logPaymentEvent db1 now "STATUS_UPDATE"

/-- The `POST /payments/webhook/tinkoff` handler of part_002.  The token
check runs only when a token is supplied and non-empty
(`receivedToken !== undefined && receivedToken !== "" && expected !== received`);
a failed check is answered with HTTP 400, an unmatched payment with
HTTP 404. -/
def webhook (password : String) (now : Nat) (db : Db) (body : NotifyBody) :
    WebhookOut :=
  let expectedToken := tinkoffNotificationToken body password
  let rejected : Bool := match body.Token with
    | none => false
    | some t => !(t == "") && !(expectedToken == t)
  if rejected then
    { db := logPaymentEvent db now "WEBHOOK_INVALID_TOKEN"
      resp := { status := 400, success := false } }
  else
    match findPayment? db.payments body with
    | none =>
        { db := logPaymentEvent db now "WEBHOOK_PAYMENT_NOT_FOUND"
          resp := { status := 404, success := false } }
    | some ip =>
        { db := applyNotification now db body ip
          resp := { status := 200, success := true } }

/-- The `POST /payments/callback` handler of part_002: identical to the
tinkoff webhook except that an unmatched payment is answered 404 without
an audit entry. -/
def callback (password : String) (now : Nat) (db : Db) (body : NotifyBody) :
    WebhookOut :=
  let expectedToken := tinkoffNotificationToken body password
  let rejected : Bool := match body.Token with
    | none => false
    | some t => !(t == "") && !(expectedToken == t)
  if rejected then
    { db := logPaymentEvent db now "WEBHOOK_INVALID_TOKEN"
      resp := { status := 400, success := false } }
  else
    match findPayment? db.payments body with
    | none => { db := db, resp := { status := 404, success := false } }
    | some ip =>
        { db := applyNotification now db body ip
          resp := { status := 200, success := true } }

/-- Environment configuration of part_002 (`TERMINAL_KEY`,
`TERMINAL_PASSWORD`, `SUCCESS_URL`, `FAIL_URL`). -/
structure Config where
  terminalKey : Option String := none
  terminalPassword : Option String := none
  successUrl : Option String := none
  failUrl : Option String := none
  deriving DecidableEq

/-- Request body of `POST /payments/create` in part_002. -/
structure CreateReq where
  telegramUserId : Option String := none
  telegramId : Option String := none
  totalAmount : Option ℚ := none
  amount : Option ℚ := none
  idempotencyKey : Option String := none
  orderId : Option String := none
  source : Option String := none
  deriving DecidableEq

/-- Response of the part_002 create endpoint. -/
structure CreateResp where
  status : Nat
  success : Bool
  paymentId : Option String := none
  paymentUrl : Option String := none
  deriving DecidableEq

/-- Result of the part_002 create endpoint. -/
structure CreateOut where
  db : Db
  resp : CreateResp
  calls : List GatewayCall
  deriving DecidableEq

/-- The part of the part_002 create handler after the idempotency check:
records the order and either submits Init to the gateway (when the
terminal is configured) or creates a local payment. -/
def createCore (cfg : Config) (now : Nat) (db0 : Db) (tid : String)
    (amount : ℚ) (amountKopecks : Int) (orderId successUrl source : String)
    (gw : GwResp) : CreateOut :=
  let newOrder : Order :=
    { orderId := orderId, telegramId := tid, totalAmount := amount,
      status := "CREATED", createdAt := now }
  let dbOrd : Db := { db0 with orders := db0.orders ++ [newOrder] }
  let db1 := logPaymentEvent dbOrd now "ORDER_CREATED"
  if jsTruthy cfg.terminalKey && jsTruthy cfg.terminalPassword then
    let calls := [GatewayCall.init amountKopecks orderId]
    if gw.success && !(gw.paymentURL == "") then
      let paymentId := jsOr gw.paymentId orderId
      let payment : Payment :=
        { orderId := orderId, paymentId := paymentId, telegramId := tid,
          amount := amount, amountKopecks := amountKopecks,
          status := "NEW", paymentUrl := gw.paymentURL,
          createdAt := now, updatedAt := some now, source := source }
      let dbPay : Db := { db1 with payments := db1.payments ++ [payment] }
      { db := logPaymentEvent dbPay now "PAYMENT_CREATED"
        resp := { status := 200, success := true,
                  paymentId := some paymentId,
                  paymentUrl := some gw.paymentURL }
        calls := calls }
    else
      { db := logPaymentEvent db1 now "TINKOFF_INIT_FAIL"
        resp := { status := 500, success := false }, calls := calls }
  else
    let payment : Payment :=
      { orderId := orderId, paymentId := orderId, telegramId := tid,
        amount := amount, status := "NEW", paymentUrl := successUrl,
        createdAt := now, updatedAt := some now, source := source }
    { db := { db1 with payments := db1.payments ++ [payment] }
      resp := { status := 200, success := true,
                paymentId := some orderId, paymentUrl := some successUrl }
      calls := [] }

/-- The `POST /payments/create` handler of part_002: validates, ensures
the user, derives the order id from the client idempotency key when one
is supplied, and returns the existing payment for that order id whenever
one with a truthy `paymentUrl` exists, regardless of its amount or
status; otherwise `createCore` runs. -/
def create (cfg : Config) (now : Nat) (db : Db) (req : CreateReq)
    (gw : GwResp) : CreateOut :=
  let tid := jsOr req.telegramUserId (jsOr req.telegramId "")
  let amount : ℚ := match req.totalAmount with
    | some a => a
    | none => match req.amount with | some a => a | none => 0
  if tid = "" ∨ amount = 0 ∨ amount < 10 then
    { db := db, resp := { status := 400, success := false }, calls := [] }
  else
    let users0 := match lookupStr db.users tid with
      | some _ => db.users
      | none => updateStr db.users tid { balance := 0, createdAt := now }
    let db0 : Db := { db with users := users0 }
    let successUrl := jsOr cfg.successUrl "https://t.me/"
    let orderId := jsOr req.idempotencyKey
      (jsOr req.orderId ("order_" ++ tid ++ "_" ++ toString now))
    let amountKopecks : Int := round (amount * 100)
    match db.payments.find? (fun p => p.orderId == orderId) with
    | some existing =>
        if !(existing.paymentUrl == "") then
          { db := logPaymentEvent db0 now "IDEMPOTENT_RETURN"
            resp := { status := 200, success := true,
                      paymentId := some existing.paymentId,
                      paymentUrl := some existing.paymentUrl }
            calls := [] }
        else
          createCore cfg now db0 tid amount amountKopecks orderId
            successUrl (jsOr req.source "telegram_mini_app") gw
    | none =>
        createCore cfg now db0 tid amount amountKopecks orderId
          successUrl (jsOr req.source "telegram_mini_app") gw

/-- Result of the part_002 cancel and refund endpoints. -/
structure ActionOut where
  db : Db
  resp : Resp
  calls : List GatewayCall
  deriving DecidableEq

/-- Payment lookup of the part_002 cancel and refund endpoints:
`p.orderId === orderId || p.paymentId === paymentId` over the optional
request body fields. -/
def findByReq? (ps : List Payment) (orderId paymentId : Option String) :
    Option (Nat × Payment) :=
  ps.enum.find? (fun ip =>
    some ip.2.orderId == orderId || some ip.2.paymentId == paymentId)

/-- The `POST /api/payments/cancel` handler of part_002: a payment
already in `CONFIRMED`, `REFUNDED`, `REJECTED` or `CANCELED` is rejected
with HTTP 400 before the gateway is contacted; otherwise Cancel is
submitted and, on success, the payment and order become `CANCELED`. -/
def cancel (cfg : Config) (now : Nat) (db : Db)
    (orderId paymentId : Option String) (gw : GwResp) : ActionOut :=
  match findByReq? db.payments orderId paymentId with
  | none => { db := db, resp := { status := 404, success := false }, calls := [] }
  | some ip =>
      if ip.2.status == "CONFIRMED" || ip.2.status == "REFUNDED" ||
          ip.2.status == "REJECTED" || ip.2.status == "CANCELED" then
        { db := db, resp := { status := 400, success := false }, calls := [] }
      else if !(jsTruthy cfg.terminalKey) || !(jsTruthy cfg.terminalPassword) then
        { db := db, resp := { status := 500, success := false }, calls := [] }
      else
        let calls := [GatewayCall.cancel ip.2.paymentId]
        if gw.success then
          let p1 : Payment := { ip.2 with status := "CANCELED",
                                          updatedAt := some now }
          { db := logPaymentEvent
              { db with orders := setOrderStatus db.orders ip.2.orderId "CANCELED",
                        payments := db.payments.set ip.1 p1 } now "CANCELED"
            resp := { status := 200, success := true }, calls := calls }
        else
          { db := db, resp := { status := 500, success := false },
            calls := calls }

/-- The `POST /api/payments/refund` handler of part_002: only a
`CONFIRMED` payment may be refunded; the amount defaults to the payment
amount and is rejected with HTTP 400 when non-positive or greater than
the payment amount (prior refunds are not consulted); on gateway success
a refund record is appended, the payment becomes `REFUNDED` only when
refunded in full, and the user balance is debited with a floor at
zero. -/
def refund (cfg : Config) (now : Nat) (db : Db)
    (orderId paymentId : Option String) (amount : Option ℚ) (gw : GwResp) :
    ActionOut :=
  match findByReq? db.payments orderId paymentId with
  | none => { db := db, resp := { status := 404, success := false }, calls := [] }
  | some ip =>
      if !(ip.2.status == "CONFIRMED") then
        { db := db, resp := { status := 400, success := false }, calls := [] }
      else
        let refundAmount : ℚ := match amount with
          | some a => a
          | none => ip.2.amount
        if refundAmount ≤ 0 ∨ ip.2.amount < refundAmount then
          { db := db, resp := { status := 400, success := false }, calls := [] }
        else if !(jsTruthy cfg.terminalKey) || !(jsTruthy cfg.terminalPassword) then
          { db := db, resp := { status := 500, success := false }, calls := [] }
        else
          let refundAmountKopecks : Int := round (refundAmount * 100)
          let calls := [GatewayCall.refund ip.2.paymentId refundAmountKopecks]
          if gw.success then
            let rec1 : RefundRecord :=
              { id := "refund_" ++ toString now, orderId := ip.2.orderId,
                paymentId := ip.2.paymentId, telegramId := ip.2.telegramId,
                amount := refundAmount, createdAt := now }
            let p1 : Payment := { ip.2 with
              status := if ip.2.amount ≤ refundAmount then "REFUNDED"
                        else ip.2.status
              updatedAt := some now }
            let users1 := match lookupStr db.users ip.2.telegramId with
              | some u => updateStr db.users ip.2.telegramId
                  { u with balance := max 0 (u.balance - refundAmount),
                           updatedAt := some now }
              | none => db.users
            { db := logPaymentEvent
                { db with users := users1,
                          payments := db.payments.set ip.1 p1,
                          refunds := db.refunds ++ [rec1] } now "REFUND"
              resp := { status := 200, success := true }, calls := calls }
          else
            { db := db, resp := { status := 500, success := false },
              calls := calls }

/-- Balance of a user in a part_002 store, if the user exists. -/
def balanceOf (db : Db) (tid : String) : Option ℚ :=
  (lookupStr db.users tid).map (fun u => u.balance)

/-- Status of a payment in a part_002 store, by order id. -/
def statusOf (db : Db) (oid : String) : Option String :=
  (db.payments.find? (fun p => p.orderId == oid)).map (fun p => p.status)

/-- Completion timestamp of a payment in a part_002 store, by order id. -/
def completedAtOf (db : Db) (oid : String) : Option (Option Nat) :=
  (db.payments.find? (fun p => p.orderId == oid)).map (fun p => p.completedAt)

end P2

namespace IJ

/-- A user record of the first index.js revision. -/
structure User where
  balance : ℚ := 0
  updatedAt : Option Nat := none
  deriving DecidableEq

/-- A payment record of the first index.js revision. -/
structure Payment where
  id : String
  telegramId : String
  amount : ℚ
  status : String
  createdAt : Nat := 0
  paymentUrl : String := ""
  completedAt : Option Nat := none
  deriving DecidableEq

/-- The index.js in-memory store, restricted to what the callback
touches. -/
structure Db where
  users : List (String × User) := []
  payments : List Payment := []
  deriving DecidableEq

/-- Body of the index.js callback.  `Amount` is modelled as required:
the handler divides it unconditionally, and a missing amount would
produce NaN, outside the numeric model. -/
structure CallbackBody where
  OrderId : Option String := none
  Status : Option String := none
  Amount : Int := 0
  deriving DecidableEq

/-- Result of the index.js callback. -/
structure WebhookOut where
  db : Db
  resp : Resp
  deriving DecidableEq

/-- The `POST /payments/callback` handler of the first index.js
revision: no token of any kind is read or verified; the payment is found
by `p.id === OrderId`; `CONFIRMED` sets the status to `completed`, sets
`completedAt` and credits `Amount / 100` to the user when one exists
(with no check of the previous payment status); `REJECTED` sets the
status to `failed`; any other status changes nothing. -/
def callback (now : Nat) (db : Db) (body : CallbackBody) : WebhookOut :=
  match db.payments.enum.find? (fun ipp => some ipp.2.id == body.OrderId) with
  | none => { db := db, resp := { status := 404, success := false } }
  | some ipp =>
      if body.Status == some "CONFIRMED" then
        let p1 : Payment := { ipp.2 with status := "completed",
                                         completedAt := some now }
        let users1 := match lookupStr db.users ipp.2.telegramId with
          | some u => updateStr db.users ipp.2.telegramId
              { u with balance := u.balance + (body.Amount : ℚ) / 100,
                       updatedAt := some now }
          | none => db.users
        { db := { users := users1, payments := db.payments.set ipp.1 p1 }
          resp := { status := 200, success := true } }
      else if body.Status == some "REJECTED" then
        let p1 : Payment := { ipp.2 with status := "failed" }
        { db := { db with payments := db.payments.set ipp.1 p1 }
          resp := { status := 200, success := true } }
      else
        { db := db, resp := { status := 200, success := true } }

/-- Balance of a user in an index.js store. -/
def balanceOf (db : Db) (tid : String) : Option ℚ :=
  (lookupStr db.users tid).map (fun u => u.balance)

end IJ

/-! ## Concrete fixtures used by the theorems -/

/-- A part_004 store with one user `42` holding balance `b` and one
payment `o1` of 500 currency units in status `s`. -/
def p4Db (s : String) (b : ℚ) : P4.Db :=
  { users := [("42", { balance := b })]
    orders := []
    payments := [{ id := "o1", telegramId := some "42", amount := 500,
                   status := s, createdAt := 0,
                   paymentUrl := some "https://pay.example/1",
                   tinkoffPaymentId := some "555" }] }

/-- A `CONFIRMED` notification for payment `o1` over 50000 kopecks. -/
def confirmedBody : NotifyBody :=
  { TerminalKey := some "TK", OrderId := some "o1",
    Status := some "CONFIRMED", PaymentId := some "555",
    Amount := some 50000 }

/-- The same notification with status `CANCELED`. -/
def canceledBody : NotifyBody := { confirmedBody with Status := some "CANCELED" }

/-- Attach the part_004 token computed with password `pw` to a body. -/
def signP4 (b : NotifyBody) (pw : String) : NotifyBody :=
  { b with Token := some (P4.createTinkoffToken b pw) }

/-- A part_002 store with one user `42` holding balance `b`, one order
and one payment `k1` of 500 units (50000 kopecks) in status `s`. -/
def p2Db (s : String) (b : ℚ) : P2.Db :=
  { users := [("42", { balance := b })]
    orders := [{ orderId := "k1", telegramId := "42", totalAmount := 500,
                 status := "CREATED", createdAt := 0 }]
    payments := [{ orderId := "k1", paymentId := "555", telegramId := "42",
                   amount := 500, amountKopecks := 50000, status := s,
                   paymentUrl := "https://pay.example/1", createdAt := 0 }]
    refunds := []
    paymentEvents := [] }

/-- A `CONFIRMED` notification for the part_002 payment `k1`. -/
def p2ConfirmedBody : NotifyBody :=
  { TerminalKey := some "TK", OrderId := some "k1",
    Status := some "CONFIRMED", PaymentId := some "555",
    Amount := some 50000 }

/-- C1 counterexample: delivering the same verified `CONFIRMED`
notification twice to the part_004 webhook credits the account twice:
the balance of user `42` is 500 after the first delivery and 1000 after
the duplicate, so a second identical `CONFIRMED` delivery does not leave
the balance unchanged. -/
theorem c1_duplicate_confirmed_credits_twice :
    P4.balanceOf (P4.webhook "pw" 7 (p4Db "NEW" 0)
        (signP4 confirmedBody "pw")).db "42" = some 500 ∧
    P4.balanceOf (P4.webhook "pw" 8
        (P4.webhook "pw" 7 (p4Db "NEW" 0) (signP4 confirmedBody "pw")).db
        (signP4 confirmedBody "pw")).db "42" = some 1000 := by
  simp [P4.webhook, P4.applyStatus, P4.findPayment?, P4.createTinkoffToken,
    P4.balanceOf, P4.stubPayment, signP4, confirmedBody, p4Db, lookupStr,
    updateStr, jsTruthy, jsOr, jsString, jsNumTruthy]
  simp only [if_neg (show ¬(toString (50000 : Int) ++ "o1" ++ "pw" ++ "555"
    ++ "CONFIRMED" ++ "TK" = "") by decide)]
  simp
  norm_num
  exact ⟨⟨_, _, ⟨rfl, rfl⟩, rfl⟩, ⟨_, _, ⟨rfl, rfl⟩, rfl⟩⟩

/-- C1 (amended): the part_004 webhook performs no duplicate or
terminal-state check, so every verified `CONFIRMED` delivery credits the
owning account by the gateway-reported amount again, whatever the
current status of the intent: for every prior status `s` and balance
`b`, delivering the verified `CONFIRMED` notification for 50000 kopecks
yields balance `b + 500`, status `CONFIRMED`, and a 200 success
response. -/
theorem c1_amended_every_confirmed_delivery_credits (s : String) (b : ℚ) :
    P4.balanceOf (P4.webhook "pw" 7 (p4Db s b) (signP4 confirmedBody "pw")).db
        "42" = some (b + 500) ∧
    P4.statusOf (P4.webhook "pw" 7 (p4Db s b) (signP4 confirmedBody "pw")).db
        "o1" = some "CONFIRMED" ∧
    (P4.webhook "pw" 7 (p4Db s b) (signP4 confirmedBody "pw")).resp =
        { status := 200, success := true } := by
  simp [P4.webhook, P4.applyStatus, P4.findPayment?, P4.createTinkoffToken,
    P4.balanceOf, P4.statusOf, P4.stubPayment, signP4, confirmedBody, p4Db,
    lookupStr, updateStr, jsTruthy, jsOr, jsString, jsNumTruthy]
  simp only [if_neg (show ¬(toString (50000 : Int) ++ "o1" ++ "pw" ++ "555"
    ++ "CONFIRMED" ++ "TK" = "") by decide)]
  simp
  norm_num
  exact ⟨_, _, ⟨rfl, rfl⟩, rfl⟩

/-- C2 counterexample: a verified `CANCELED` notification delivered to a
payment already in the terminal state `CONFIRMED` is not discarded by the
part_004 webhook: the payment status is overwritten to `CANCELED`. -/
theorem c2_canceled_overwrites_terminal_confirmed :
    P4.statusOf (P4.webhook "pw" 7 (p4Db "CONFIRMED" 500)
        (signP4 canceledBody "pw")).db "o1" = some "CANCELED" ∧
    (P4.webhook "pw" 7 (p4Db "CONFIRMED" 500)
        (signP4 canceledBody "pw")).resp.success = true := by
  simp [P4.webhook, P4.applyStatus, P4.findPayment?, P4.createTinkoffToken,
    P4.statusOf, P4.stubPayment, signP4, canceledBody, confirmedBody, p4Db,
    lookupStr, updateStr, jsTruthy, jsOr, jsString, jsNumTruthy]
  simp only [if_neg (show ¬(toString (50000 : Int) ++ "o1" ++ "pw" ++ "555"
    ++ "CANCELED" ++ "TK" = "") by decide)]
  simp

/-- C2 (amended): the part_004 webhook has no terminal-state check at
all: a verified `CANCELED` notification overwrites the status of the
intent whatever its current status is (in particular from any of the
terminal statuses), leaving the balance untouched on that branch. -/
theorem c2_amended_no_terminal_state_check (s : String) (b : ℚ) :
    P4.statusOf (P4.webhook "pw" 7 (p4Db s b) (signP4 canceledBody "pw")).db
        "o1" = some "CANCELED" ∧
    P4.balanceOf (P4.webhook "pw" 7 (p4Db s b) (signP4 canceledBody "pw")).db
        "42" = some b := by
  simp [P4.webhook, P4.applyStatus, P4.findPayment?, P4.createTinkoffToken,
    P4.statusOf, P4.balanceOf, P4.stubPayment, signP4, canceledBody,
    confirmedBody, p4Db, lookupStr, updateStr, jsTruthy, jsOr, jsString,
    jsNumTruthy]
  simp only [if_neg (show ¬(toString (50000 : Int) ++ "o1" ++ "pw" ++ "555"
    ++ "CANCELED" ++ "TK" = "") by decide)]
  simp
  exact ⟨_, _, ⟨rfl, rfl⟩, rfl⟩

/-- A `CONFIRMED` notification whose order id matches no payment. -/
def strayBody : NotifyBody :=
  { TerminalKey := some "TK", OrderId := some "ox",
    Status := some "CONFIRMED", PaymentId := some "999",
    Amount := some 50000 }

/-- A part_004 store whose only payment belongs to `ghost`, a telegram
id with no user record; the only user is `42`. -/
def ghostDb (u : P4.User) : P4.Db :=
  { users := [("42", u)]
    orders := []
    payments := [{ id := "o1", telegramId := some "ghost", amount := 500,
                   status := "NEW", createdAt := 0,
                   tinkoffPaymentId := some "555" }] }

/-- C10: a verified `CONFIRMED` notification that resolves to a payment
without a user record still marks the payment `CONFIRMED` and sets
`completedAt`, but leaves the users store entirely unchanged.  First
leg: the notification matches no payment, so the part_004 webhook
creates a stub (with `telegramId` null) and confirms it, for every users
store `us`.  Second leg: the payment belongs to telegram id `ghost` with
no user record, and the single existing user `42` keeps its record
untouched, for every user record `u`. -/
theorem c10_confirmed_without_user_keeps_balances
    (us : List (String × P4.User)) (u : P4.User) :
    ((P4.webhook "pw" 7 { users := us, orders := [], payments := [] }
        (signP4 strayBody "pw")).db.users = us ∧
     P4.statusOf (P4.webhook "pw" 7 { users := us, orders := [], payments := [] }
        (signP4 strayBody "pw")).db "ox" = some "CONFIRMED" ∧
     P4.completedAtOf (P4.webhook "pw" 7 { users := us, orders := [], payments := [] }
        (signP4 strayBody "pw")).db "ox" = some (some 7)) ∧
    ((P4.webhook "pw" 7 (ghostDb u) (signP4 confirmedBody "pw")).db.users
        = [("42", u)] ∧
     P4.statusOf (P4.webhook "pw" 7 (ghostDb u) (signP4 confirmedBody "pw")).db
        "o1" = some "CONFIRMED" ∧
     P4.completedAtOf (P4.webhook "pw" 7 (ghostDb u)
        (signP4 confirmedBody "pw")).db "o1" = some (some 7)) := by
  simp [P4.webhook, P4.applyStatus, P4.findPayment?, P4.createTinkoffToken,
    P4.statusOf, P4.completedAtOf, P4.stubPayment, signP4, strayBody,
    confirmedBody, ghostDb, lookupStr, updateStr, jsTruthy, jsOr, jsString,
    jsNumTruthy]
  simp only [if_neg (show ¬(toString (50000 : Int) ++ "ox" ++ "pw" ++ "999"
    ++ "CONFIRMED" ++ "TK" = "") by decide)]
  simp only [if_neg (show ¬(toString (50000 : Int) ++ "o1" ++ "pw" ++ "555"
    ++ "CONFIRMED" ++ "TK" = "") by decide)]
  simp

/-- C4 (amended): only the part_004 webhook always answers HTTP 200
with a success boolean, whatever the verification outcome, signalling a
signature failure only through `success false` in the body; the
part_002 webhook instead answers HTTP 400 on a failed token check and
HTTP 404 when the payment is unknown. -/
theorem c4_amended_only_part004_always_200
    (pw : String) (now : Nat) (db : P4.Db) (data : NotifyBody) :
    (P4.webhook pw now db data).resp.status = 200 ∧
    (P2.webhook "pw" 7 (p2Db "NEW" 0)
        { p2ConfirmedBody with Token := some "BAD" }).resp.status = 400 ∧
    (P2.webhook "pw" 7 (p2Db "NEW" 0)
        { p2ConfirmedBody with OrderId := some "nope",
                               PaymentId := some "0",
                               Token := none }).resp.status = 404 := by
  refine ⟨?_, by decide, by decide⟩
  unfold P4.webhook
  dsimp only
  split
  · split <;> rfl
  · rfl

/-- C9: in part_002, a notification without a `Token` field, or with an
empty one, is applied in full by both notification handlers without any
signature verification: for every balance `b` and every terminal
password `pw` (the result does not depend on the secret at all), the
`CONFIRMED` transition is applied, `completedAt` is set, and the account
is credited.  The three legs are the tinkoff webhook without token, the
tinkoff webhook with an empty token, and the callback without token. -/
theorem c9_part002_missing_token_is_trusted (b : ℚ) (pw : String) :
    ((P2.webhook pw 7 (p2Db "NEW" b) { p2ConfirmedBody with Token := none }).resp
        = { status := 200, success := true } ∧
     P2.balanceOf (P2.webhook pw 7 (p2Db "NEW" b)
        { p2ConfirmedBody with Token := none }).db "42" = some (b + 500) ∧
     P2.statusOf (P2.webhook pw 7 (p2Db "NEW" b)
        { p2ConfirmedBody with Token := none }).db "k1" = some "CONFIRMED" ∧
     P2.completedAtOf (P2.webhook pw 7 (p2Db "NEW" b)
        { p2ConfirmedBody with Token := none }).db "k1" = some (some 7)) ∧
    (P2.balanceOf (P2.webhook pw 7 (p2Db "NEW" b)
        { p2ConfirmedBody with Token := some "" }).db "42" = some (b + 500) ∧
     P2.statusOf (P2.webhook pw 7 (p2Db "NEW" b)
        { p2ConfirmedBody with Token := some "" }).db "k1" = some "CONFIRMED") ∧
    (P2.balanceOf (P2.callback pw 7 (p2Db "NEW" b)
        { p2ConfirmedBody with Token := none }).db "42" = some (b + 500) ∧
     P2.statusOf (P2.callback pw 7 (p2Db "NEW" b)
        { p2ConfirmedBody with Token := none }).db "k1" = some "CONFIRMED") := by
  have hup : jsToUpper "CONFIRMED" = "CONFIRMED" := by decide
  simp [P2.webhook, P2.callback, P2.applyNotification, P2.findPayment?,
    P2.logPaymentEvent, P2.setOrderStatus, P2.tinkoffNotificationToken,
    P2.balanceOf, P2.statusOf, P2.completedAtOf, p2Db, p2ConfirmedBody,
    lookupStr, updateStr, jsTruthy, jsOr, jsString, hup]
  norm_num

/-- C3 counterexample: altering the single field `Token` of a validly
signed part_002 notification to the empty string yields a notification
whose signature does not match the recomputed keyed checksum, yet the
part_002 webhook applies it in full: the payment becomes `CONFIRMED` and
the balance is credited, instead of failing verification with no
mutation. -/
theorem c3_single_field_alteration_accepted :
    some "" ≠ some (P2.tinkoffNotificationToken p2ConfirmedBody "pw") ∧
    (P2.webhook "pw" 7 (p2Db "NEW" 0)
        { p2ConfirmedBody with Token := some "" }).resp
      = { status := 200, success := true } ∧
    P2.balanceOf (P2.webhook "pw" 7 (p2Db "NEW" 0)
        { p2ConfirmedBody with Token := some "" }).db "42" = some 500 ∧
    P2.statusOf (P2.webhook "pw" 7 (p2Db "NEW" 0)
        { p2ConfirmedBody with Token := some "" }).db "k1" = some "CONFIRMED" := by
  have hup : jsToUpper "CONFIRMED" = "CONFIRMED" := by decide
  refine ⟨by decide, ?_⟩
  simp [P2.webhook, P2.applyNotification, P2.findPayment?,
    P2.logPaymentEvent, P2.setOrderStatus, P2.tinkoffNotificationToken,
    P2.balanceOf, P2.statusOf, p2Db, p2ConfirmedBody,
    lookupStr, updateStr, jsTruthy, jsOr, jsString, hup]
  norm_num

/-- C3 (amended): a mismatching signature is rejected without mutation
only where the check is reachable.  First leg: the part_004 webhook
leaves the store untouched and answers success false whenever the token
is missing, empty, or different from the recomputed digest.  Second leg:
the part_002 webhook rejects with HTTP 400 and no change to users,
payments or orders only when the supplied token is present and
non-empty; an absent or empty token bypasses verification entirely (see
C9), and the index.js callback has no verification at all. -/
theorem c3_amended_mismatch_rejected_where_checked :
    (∀ (pw : String) (now : Nat) (db : P4.Db) (data : NotifyBody),
        (match data.Token with
         | none => True
         | some t => t = "" ∨ t ≠ P4.createTinkoffToken data pw) →
        (P4.webhook pw now db data).db = db ∧
        (P4.webhook pw now db data).resp = { status := 200, success := false }) ∧
    (∀ (pw : String) (now : Nat) (db : P2.Db) (body : NotifyBody) (t : String),
        body.Token = some t → t ≠ "" →
        t ≠ P2.tinkoffNotificationToken body pw →
        (P2.webhook pw now db body).db.users = db.users ∧
        (P2.webhook pw now db body).db.payments = db.payments ∧
        (P2.webhook pw now db body).db.orders = db.orders ∧
        (P2.webhook pw now db body).resp = { status := 400, success := false }) := by
  constructor
  · intro pw now db data h
    have htok : (match data.Token with
        | none => false
        | some t => !(t == "") && t == P4.createTinkoffToken data pw) = false := by
      match hT : data.Token with
      | none => rfl
      | some t =>
          rw [hT] at h
          rcases h with h1 | h1
          · subst h1; simp
          · simp [h1]
    simp [P4.webhook, htok]
  · intro pw now db body t hT hne hmis
    have hmis2 : ¬ (P2.tinkoffNotificationToken body pw = t) :=
      fun h => hmis h.symm
    have hrej : (match body.Token with
        | none => false
        | some t => !(t == "") && !(P2.tinkoffNotificationToken body pw == t))
          = true := by
      rw [hT]
      simp [hne, hmis2]
    simp [P2.webhook, hrej, P2.logPaymentEvent]

/-- C3 (amended) witness: the amended theorem applied at a concrete
mismatching token `BAD` for both revisions. -/
theorem c3_amended_witness :
    (P4.webhook "pw" 7 (p4Db "NEW" 0)
        { confirmedBody with Token := some "BAD" }).db = p4Db "NEW" 0 ∧
    (P2.webhook "pw" 7 (p2Db "NEW" 0)
        { p2ConfirmedBody with Token := some "BAD" }).resp
      = { status := 400, success := false } :=
  ⟨(c3_amended_mismatch_rejected_where_checked.1 "pw" 7 (p4Db "NEW" 0)
      { confirmedBody with Token := some "BAD" } (by decide)).1,
   (c3_amended_mismatch_rejected_where_checked.2 "pw" 7 (p2Db "NEW" 0)
      { p2ConfirmedBody with Token := some "BAD" } "BAD" rfl (by decide)
      (by decide)).2.2.2⟩

/-- C4 counterexample: a request to the part_002 payments webhook with a
present but mismatching token is answered with HTTP status 400, not 200:
a signature-verification failure is surfaced as an HTTP error status
there. -/
theorem c4_part002_invalid_token_answers_400 :
    (P2.webhook "pw" 7 (p2Db "NEW" 0)
        { p2ConfirmedBody with Token := some "BAD" }).resp.status = 400 := by
  decide

/-- A configured part_002 terminal. -/
def p2cfg : P2.Config := { terminalKey := some "TK", terminalPassword := some "pw" }

/-- A successful gateway Init response. -/
def gwOk : GwResp :=
  { success := true, paymentURL := "https://new.example", paymentId := some "999" }

/-- C5 counterexample: in part_002, a create request carrying the
idempotency key `k1` of an existing `NEW` intent of account `42` over
amount 500, but asking for the different amount 200, is answered with
the existing intent's payment URL; no fresh intent is created and no
gateway call is made, although the claim requires a fresh intent for a
different amount. -/
theorem c5_same_key_different_amount_reuses_intent :
    (P2.create p2cfg 7 (p2Db "NEW" 0)
        { telegramUserId := some "42", amount := some 200,
          idempotencyKey := some "k1" } gwOk).resp.paymentUrl
      = some "https://pay.example/1" ∧
    (P2.create p2cfg 7 (p2Db "NEW" 0)
        { telegramUserId := some "42", amount := some 200,
          idempotencyKey := some "k1" } gwOk).db.payments
      = (p2Db "NEW" 0).payments ∧
    (P2.create p2cfg 7 (p2Db "NEW" 0)
        { telegramUserId := some "42", amount := some 200,
          idempotencyKey := some "k1" } gwOk).db.orders
      = (p2Db "NEW" 0).orders ∧
    (P2.create p2cfg 7 (p2Db "NEW" 0)
        { telegramUserId := some "42", amount := some 200,
          idempotencyKey := some "k1" } gwOk).calls = [] := by
  decide

/-- A part_004 store with one active `NEW` intent of account `42` over
amount 100. -/
def p4CDb : P4.Db :=
  { users := [("42", { balance := 0 })]
    orders := []
    payments := [{ id := "p100", telegramId := some "42", amount := 100,
                   status := "NEW", createdAt := 0,
                   paymentUrl := some "https://old.example",
                   tinkoffPaymentId := some "555" }] }

/-- A part_002 create request with idempotency key `k`, account `tid`
and amount `a`. -/
def c5req (tid k : String) (a : ℚ) : P2.CreateReq :=
  { telegramUserId := some tid, amount := some a, idempotencyKey := some k }

/-- C5 (amended): the idempotency actually implemented.  First leg,
part_002: whenever the supplied idempotency key maps to an existing
payment with a truthy payment URL, the create endpoint returns that
payment URL unchanged, creates no payment and no order, and makes no
gateway call, regardless of the requested amount and of the intent
status.  Second and third legs, part_004: no client key is read;
a request for the same account and amount as an active `NEW` intent
returns the existing URL without contacting the gateway, while a request
for a different amount creates a fresh intent through a gateway Init
call. -/
theorem c5_amended_idempotency_as_implemented :
    (∀ (cfg : P2.Config) (now : Nat) (db : P2.Db) (tid k : String) (a : ℚ)
        (gw : GwResp) (p0 : P2.Payment),
        tid ≠ "" → a ≠ 0 → ¬ a < 10 → k ≠ "" →
        db.payments.find? (fun p => p.orderId == k) = some p0 →
        p0.paymentUrl ≠ "" →
        (P2.create cfg now db (c5req tid k a) gw).resp.paymentUrl
          = some p0.paymentUrl ∧
        (P2.create cfg now db (c5req tid k a) gw).db.payments = db.payments ∧
        (P2.create cfg now db (c5req tid k a) gw).db.orders = db.orders ∧
        (P2.create cfg now db (c5req tid k a) gw).calls = []) ∧
    ((P4.create (some "TK") 7 p4CDb
        { telegramId := some "42", amount := some 100 } gwOk).resp.paymentUrl
          = some "https://old.example" ∧
     (P4.create (some "TK") 7 p4CDb
        { telegramId := some "42", amount := some 100 } gwOk).db.payments
          = p4CDb.payments ∧
     (P4.create (some "TK") 7 p4CDb
        { telegramId := some "42", amount := some 100 } gwOk).calls = []) ∧
    ((P4.create (some "TK") 7 p4CDb
        { telegramId := some "42", amount := some 200 } gwOk).calls
          = [GatewayCall.init 20000 "tg-42-7"] ∧
     (P4.create (some "TK") 7 p4CDb
        { telegramId := some "42", amount := some 200 } gwOk).db.payments.length
          = p4CDb.payments.length + 1 ∧
     (P4.create (some "TK") 7 p4CDb
        { telegramId := some "42", amount := some 200 } gwOk).resp.paymentUrl
          = some "https://new.example") := by
  refine ⟨?_, by decide, ?_⟩
  · intro cfg now db tid k a gw p0 htid ha0 ha10 hk hfind hurl
    have hbt : (tid == "") = false := by simp [htid]
    have hbk : (k == "") = false := by simp [hk]
    have hbu : (p0.paymentUrl == "") = false := by simp [hurl]
    simp only [P2.create, c5req, jsOr, hbt, hbk, Bool.false_eq_true, if_false]
    rw [if_neg (by
      push_neg
      exact ⟨htid, ha0, not_lt.mp ha10⟩)]
    simp [hfind, hbu, P2.logPaymentEvent]
  · simp [P4.create, p4CDb, gwOk, lookupStr, updateStr, jsTruthy, jsOr,
      jsString, jsNumTruthy]
    norm_num
    decide

/-- The payment of `p2Db` in status `NEW`, as a standalone record. -/
def p2PayNew : P2.Payment :=
  { orderId := "k1", paymentId := "555", telegramId := "42", amount := 500,
    amountKopecks := 50000, status := "NEW",
    paymentUrl := "https://pay.example/1", createdAt := 0 }

/-- C5 (amended) witness: the part_002 leg of the amended theorem applied
at key `k1` and amount 200 against the concrete store. -/
theorem c5_amended_witness :
    (P2.create p2cfg 7 (p2Db "NEW" 0) (c5req "42" "k1" 200) gwOk).resp.paymentUrl
      = some "https://pay.example/1" ∧
    (P2.create p2cfg 7 (p2Db "NEW" 0) (c5req "42" "k1" 200) gwOk).calls = [] :=
  have h := c5_amended_idempotency_as_implemented.1 p2cfg 7 (p2Db "NEW" 0)
    "42" "k1" 200 gwOk p2PayNew (by decide) (by norm_num) (by norm_num)
    (by decide) (by decide) (by decide)
  ⟨h.1, h.2.2.2⟩

/-- A successful gateway response with no payload (Cancel or Refund). -/
def gwYes : GwResp := { success := true }

/-- C6 counterexample: a merchant cancel on the part_004 payment `o1`
already in the terminal state `CANCELED` is not rejected locally: the
handler submits Cancel to the external gateway (again) and answers
success. -/
theorem c6_part004_cancel_on_terminal_resubmits :
    (P4.cancel 7 (p4Db "CANCELED" 0) "o1" gwYes).calls
      = [GatewayCall.cancel "555"] ∧
    (P4.cancel 7 (p4Db "CANCELED" 0) "o1" gwYes).resp
      = { status := 200, success := true } := by
  decide

/-- C6 (amended): only part_002 rejects a merchant cancel or refund on a
terminal intent locally, before any gateway call.  First leg: the
part_002 cancel answers HTTP 400 with no gateway call and no store
change whenever the payment status is one of `CONFIRMED`, `REFUNDED`,
`REJECTED`, `CANCELED`.  Second leg: the part_002 refund answers HTTP
400 with no gateway call and no store change whenever the payment status
differs from `CONFIRMED` (hence on every terminal status other than the
permitted refund source).  The part_004 cancel and refund perform no
such check (see the counterexamples of C6 and C7). -/
theorem c6_amended_part002_rejects_terminal_locally :
    (∀ (cfg : P2.Config) (now : Nat) (db : P2.Db)
        (oid pid : Option String) (gw : GwResp) (ip : Nat × P2.Payment),
        P2.findByReq? db.payments oid pid = some ip →
        (ip.2.status = "CONFIRMED" ∨ ip.2.status = "REFUNDED" ∨
         ip.2.status = "REJECTED" ∨ ip.2.status = "CANCELED") →
        (P2.cancel cfg now db oid pid gw).resp.status = 400 ∧
        (P2.cancel cfg now db oid pid gw).calls = [] ∧
        (P2.cancel cfg now db oid pid gw).db = db) ∧
    (∀ (cfg : P2.Config) (now : Nat) (db : P2.Db)
        (oid pid : Option String) (amount : Option ℚ) (gw : GwResp)
        (ip : Nat × P2.Payment),
        P2.findByReq? db.payments oid pid = some ip →
        ip.2.status ≠ "CONFIRMED" →
        (P2.refund cfg now db oid pid amount gw).resp.status = 400 ∧
        (P2.refund cfg now db oid pid amount gw).calls = [] ∧
        (P2.refund cfg now db oid pid amount gw).db = db) := by
  constructor
  · intro cfg now db oid pid gw ip hfind hterm
    have hb : (ip.2.status == "CONFIRMED" || ip.2.status == "REFUNDED" ||
        ip.2.status == "REJECTED" || ip.2.status == "CANCELED") = true := by
      rcases hterm with h | h | h | h <;> simp [h]
    simp [P2.cancel, hfind, hb]
  · intro cfg now db oid pid amount gw ip hfind hst
    have hb : (ip.2.status == "CONFIRMED") = false := by simp [hst]
    simp [P2.refund, hfind, hb]

/-- C6 (amended) witness: the amended theorem applied to the part_002
store whose payment `k1` is `CANCELED` (for the cancel leg) and
`REFUNDED` (for the refund leg). -/
theorem c6_amended_witness :
    (P2.cancel p2cfg 7 (p2Db "CANCELED" 0) (some "k1") none gwYes).resp.status
      = 400 ∧
    (P2.cancel p2cfg 7 (p2Db "CANCELED" 0) (some "k1") none gwYes).calls
      = [] ∧
    (P2.refund p2cfg 7 (p2Db "REFUNDED" 0) (some "k1") none (some 100)
        gwYes).resp.status = 400 ∧
    (P2.refund p2cfg 7 (p2Db "REFUNDED" 0) (some "k1") none (some 100)
        gwYes).calls = [] :=
  have h1 := c6_amended_part002_rejects_terminal_locally.1 p2cfg 7
    (p2Db "CANCELED" 0) (some "k1") none gwYes
    (0, { p2PayNew with status := "CANCELED" }) (by decide)
    (Or.inr (Or.inr (Or.inr rfl)))
  have h2 := c6_amended_part002_rejects_terminal_locally.2 p2cfg 7
    (p2Db "REFUNDED" 0) (some "k1") none (some 100) gwYes
    (0, { p2PayNew with status := "REFUNDED" }) (by decide) (by decide)
  ⟨h1.1, h1.2.1, h2.1, h2.2.1⟩

/-- Refund list of a part_004 payment. -/
def p4RefundsOf (db : P4.Db) (pid : String) : Option (List P4.RefundEntry) :=
  (db.payments.find? (fun p => p.id == pid)).map (fun p => p.refunds)

/-- C7 counterexample: a merchant refund of 1000 on the part_004 payment
`o1` whose confirmed amount is 500 (and with no prior refunds) is not
rejected locally: the handler submits a 100000-kopeck Refund to the
gateway and applies it. -/
theorem c7_part004_over_refund_reaches_gateway :
    (P4.refund 7 (p4Db "CONFIRMED" 500) "o1" (some 1000) gwYes).calls
      = [GatewayCall.refund "555" 100000] ∧
    (P4.refund 7 (p4Db "CONFIRMED" 500) "o1" (some 1000) gwYes).resp
      = { status := 200, success := true } ∧
    p4RefundsOf (P4.refund 7 (p4Db "CONFIRMED" 500) "o1" (some 1000)
        gwYes).db "o1" = some [{ amount := 1000, at_ := 7 }] := by
  simp [P4.refund, P4.findByParam?, p4RefundsOf, p4Db, lookupStr,
    updateStr, jsTruthy, jsString, gwYes]
  norm_num

/-- C7 (amended): the refund cap actually implemented.  First leg,
part_002: a refund request for more than the payment amount is rejected
with HTTP 400 before any gateway call and without touching the store
(prior refunds are not consulted by this check).  Second leg, part_004:
only positivity is checked; a non-positive requested amount is rejected
locally, and nothing else is (see the counterexample). -/
theorem c7_amended_refund_cap_as_implemented :
    (∀ (cfg : P2.Config) (now : Nat) (db : P2.Db)
        (oid pid : Option String) (a : ℚ) (gw : GwResp)
        (ip : Nat × P2.Payment),
        P2.findByReq? db.payments oid pid = some ip →
        ip.2.amount < a →
        (P2.refund cfg now db oid pid (some a) gw).resp.status = 400 ∧
        (P2.refund cfg now db oid pid (some a) gw).calls = [] ∧
        (P2.refund cfg now db oid pid (some a) gw).db = db) ∧
    (∀ (now : Nat) (db : P4.Db) (pid : String) (a : ℚ) (gw : GwResp)
        (ip : Nat × P4.Payment),
        P4.findByParam? db.payments pid = some ip →
        jsTruthy ip.2.tinkoffPaymentId = true →
        a < 0 →
        (P4.refund now db pid (some a) gw).resp.status = 400 ∧
        (P4.refund now db pid (some a) gw).calls = [] ∧
        (P4.refund now db pid (some a) gw).db = db) := by
  constructor
  · intro cfg now db oid pid a gw ip hfind hlt
    by_cases hstat : ip.2.status = "CONFIRMED"
    · simp [P2.refund, hfind, hstat, hlt]
    · simp [P2.refund, hfind, hstat]
  · intro now db pid a gw ip hfind htr hneg
    have hne : ¬ (a = 0) := by intro h; rw [h] at hneg; exact lt_irrefl 0 hneg
    simp [P4.refund, hfind, htr, hne, le_of_lt hneg]

/-- C7 (amended) witness: the amended theorem applied at concrete
over-refund and negative-refund requests. -/
theorem c7_amended_witness :
    (P2.refund p2cfg 7 (p2Db "CONFIRMED" 500) (some "k1") none (some 1000)
        gwYes).resp.status = 400 ∧
    (P2.refund p2cfg 7 (p2Db "CONFIRMED" 500) (some "k1") none (some 1000)
        gwYes).calls = [] ∧
    (P4.refund 7 (p4Db "CONFIRMED" 500) "o1" (some (-3)) gwYes).resp.status
      = 400 ∧
    (P4.refund 7 (p4Db "CONFIRMED" 500) "o1" (some (-3)) gwYes).calls = [] :=
  have h1 := c7_amended_refund_cap_as_implemented.1 p2cfg 7
    (p2Db "CONFIRMED" 500) (some "k1") none 1000 gwYes
    (0, { p2PayNew with status := "CONFIRMED" }) (by decide)
    (by norm_num [p2PayNew])
  have h2 := c7_amended_refund_cap_as_implemented.2 7 (p4Db "CONFIRMED" 500)
    "o1" (-3) gwYes
    (0, { id := "o1", telegramId := some "42", amount := 500,
          status := "CONFIRMED", createdAt := 0,
          paymentUrl := some "https://pay.example/1",
          tinkoffPaymentId := some "555" }) (by decide) (by decide)
    (by norm_num)
  ⟨h1.1, h1.2.1, h2.1, h2.2.1⟩

namespace P4

/-- Non-negativity of every balance in a users store. -/
def usersNonNeg (m : List (String × User)) : Prop :=
  ∀ kv ∈ m, 0 ≤ kv.2.balance

/-- Updating one binding preserves non-negativity when the new record has
a non-negative balance. -/
theorem usersNonNeg_updateStr {m : List (String × User)} {k : String}
    {v : User} (hm : usersNonNeg m) (hv : 0 ≤ v.balance) :
    usersNonNeg (updateStr m k v) := by
  unfold updateStr
  split
  · intro kv hkv
    rcases List.mem_or_eq_of_mem_set hkv with h | h
    · exact hm kv h
    · rw [h]; exact hv
  · intro kv hkv
    rcases List.mem_append.mp hkv with h | h
    · exact hm kv h
    · rw [List.mem_singleton.mp h]; exact hv

/-- A successful lookup in a non-negative store returns a non-negative
balance. -/
theorem usersNonNeg_lookup {m : List (String × User)} {k : String}
    {u : User} (hm : usersNonNeg m) (h : lookupStr m k = some u) :
    0 ≤ u.balance := by
  unfold lookupStr at h
  cases hf : m.find? (fun kv => kv.1 == k) with
  | none => rw [hf] at h; exact Option.noConfusion h
  | some kv =>
      rw [hf] at h
      have h2 : kv.2 = u := Option.some.inj h
      rw [← h2]
      exact hm kv (List.mem_of_find?_eq_some hf)

/-- The credited delta of a notification is non-negative when the
reported amount is. -/
theorem delta_nonneg (data : NotifyBody)
    (hA : ∀ a, data.Amount = some a → 0 ≤ a) :
    0 ≤ (match data.Amount with
          | some a => ((a : ℚ)) / 100
          | none => (0 : ℚ)) := by
  cases h : data.Amount with
  | none => exact le_refl 0
  | some a =>
      have ha := hA a h
      simp only [h]
      exact div_nonneg (by exact_mod_cast ha) (by norm_num)

/-- The status switch of the part_004 webhook preserves non-negative
balances provided the notification does not report a negative amount. -/
theorem applyStatus_usersNonNeg (now : Nat) (data : NotifyBody)
    {users : List (String × User)} (orders : List (String × Order))
    (p0 : Payment) (hm : usersNonNeg users)
    (hA : ∀ a, data.Amount = some a → 0 ≤ a) :
    usersNonNeg (applyStatus now data users orders p0).users := by
  have hdelta := delta_nonneg data hA
  unfold applyStatus
  dsimp only
  split <;> (try dsimp only)
  · exact hm
  · -- CONFIRMED
    split
    · split
      · split
        · rename_i tid htid u hlook hOk
          apply usersNonNeg_updateStr hm
          have hub := usersNonNeg_lookup hm (by assumption)
          exact add_nonneg hub hdelta
        · exact hm
      · exact hm
    · exact hm
  · exact hm
  · exact hm
  · -- REFUNDED
    split
    · split
      · split
        · apply usersNonNeg_updateStr hm
          exact le_max_left 0 _
        · exact hm
      · exact hm
    · exact hm
  · exact hm

/-- One operation of the part_004 service preserves non-negative
balances, provided the operation satisfies `opOk` (no client-supplied
negative balance on profile sync, no negative gateway amount). -/
theorem applyOp_nonneg (pw : String) (tk : Option String) (now : Nat)
    (db : Db) (op : Op) (h : dbNonNeg db) (hop : opOk op = true) :
    dbNonNeg (applyOp pw tk now db op) := by
  have hu : usersNonNeg db.users := h
  cases op with
  | profileSync body =>
      have hb : ∀ b, body.balance = some b → (0 : ℚ) ≤ b := by
        intro b hbb
        simp only [opOk, hbb] at hop
        exact of_decide_eq_true hop
      show usersNonNeg (postUsers now db body).db.users
      unfold postUsers
      dsimp only
      split
      · exact hu
      · split
        · apply usersNonNeg_updateStr hu
          cases hbb : body.balance with
          | some b => simpa [hbb] using hb b hbb
          | none =>
              simp only [hbb]
              exact usersNonNeg_lookup hu (by assumption)
        · apply usersNonNeg_updateStr hu
          cases hbb : body.balance with
          | some b => simpa [hbb] using hb b hbb
          | none => simp [hbb]
  | notification data =>
      have hA : ∀ a, data.Amount = some a → (0 : Int) ≤ a := by
        intro a ha
        simp only [opOk, ha] at hop
        exact of_decide_eq_true hop
      show usersNonNeg (webhook pw now db data).db.users
      unfold webhook
      dsimp only
      split
      · split
        · exact applyStatus_usersNonNeg now data _ _ hu hA
        · exact applyStatus_usersNonNeg now data _ _ hu hA
      · exact hu
  | createTopUp req gw =>
      show usersNonNeg (create tk now db req gw).db.users
      unfold create
      dsimp only
      split
      · exact hu
      · split
        · exact hu
        · have hu0 : usersNonNeg (match lookupStr db.users (jsOr req.telegramId "") with
              | some _ => db.users
              | none => updateStr db.users (jsOr req.telegramId "")
                  { balance := 0, createdAt := now }) := by
            split
            · exact hu
            · exact usersNonNeg_updateStr hu le_rfl
          split
          · exact hu0
          · split
            · exact hu0
            · exact hu0
  | cancelPayment pid gw =>
      show usersNonNeg (cancel now db pid gw).db.users
      unfold cancel
      dsimp only
      split
      · exact hu
      · split
        · exact hu
        · split
          · exact hu
          · exact hu
  | refundPayment pid amount gw =>
      show usersNonNeg (refund now db pid amount gw).db.users
      unfold refund
      dsimp only
      split
      · exact hu
      · split
        · exact hu
        · split
          · exact hu
          · split
            · split
              · split
                · apply usersNonNeg_updateStr hu
                  exact le_max_left 0 _
                · exact hu
              · exact hu
            · exact hu
  | addBalance tid amount =>
      show usersNonNeg (balanceAdd now db tid amount).db.users
      unfold balanceAdd
      dsimp only
      have hu0 : usersNonNeg (match lookupStr db.users tid with
          | some _ => db.users
          | none => updateStr db.users tid { balance := 0, createdAt := now }) := by
        split
        · exact hu
        · exact usersNonNeg_updateStr hu le_rfl
      split <;> (try dsimp only)
      · exact hu0
      · rename_i a
        split <;> (try dsimp only)
        · exact hu0
        · rename_i ha
          split <;> (try dsimp only)
          · rename_i u hlook
            apply usersNonNeg_updateStr hu0
            have hua := usersNonNeg_lookup hu0 hlook
            exact add_nonneg hua (le_of_lt (lt_of_not_le ha))
          · exact hu0
  | subtractBalance tid amount =>
      show usersNonNeg (balanceSubtract db tid amount).db.users
      unfold balanceSubtract
      dsimp only
      split <;> (try dsimp only)
      · exact hu
      · rename_i u hlook
        split <;> (try dsimp only)
        · exact hu
        · rename_i a
          split <;> (try dsimp only)
          · exact hu
          · rename_i ha
            split <;> (try dsimp only)
            · exact hu
            · rename_i hlt
              apply usersNonNeg_updateStr hu
              simpa using sub_nonneg.mpr (le_of_not_lt hlt)

end P4

/-- C8 counterexample: the public profile-sync endpoint of part_004
stores a client-supplied negative balance verbatim: after syncing user
`9` with balance -5 into an empty store, the stored balance is -5,
which is negative. -/
theorem c8_profile_sync_stores_negative_balance :
    P4.balanceOf (P4.postUsers 7 { users := [], orders := [], payments := [] }
        { telegramId := some "9", balance := some (-5) }).db "9"
      = some (-5) ∧
    ¬ ((0 : ℚ) ≤ -5) := by
  exact ⟨by decide, by norm_num⟩

/-- C8 (amended): every balance stays non-negative under every sequence
of part_004 payment and balance operations, provided profile syncs do
not supply a negative client balance and gateway notifications do not
report a negative amount; without that proviso the invariant fails (see
the counterexample). -/
theorem c8_amended_balances_nonneg (pw : String) (tk : Option String)
    (now : Nat) (db : P4.Db) (ops : List P4.Op) (h : P4.dbNonNeg db)
    (hops : ∀ op ∈ ops, P4.opOk op = true) :
    P4.dbNonNeg (ops.foldl (P4.applyOp pw tk now) db) := by
  induction ops generalizing db with
  | nil => simpa using h
  | cons op rest ih =>
      simp only [List.foldl_cons]
      exact ih (P4.applyOp pw tk now db op)
        (P4.applyOp_nonneg pw tk now db op h (hops op (by simp)))
        (fun o ho => hops o (by simp [ho]))

/-- A concrete sequence of operations: top-up credit via webhook, a
manual balance add, a subtract, a profile sync without balance, and a
refund notification. -/
def c8ops : List P4.Op :=
  [P4.Op.addBalance "42" (some 50),
   P4.Op.notification (signP4 confirmedBody "pw"),
   P4.Op.subtractBalance "42" (some 20),
   P4.Op.profileSync { telegramId := some "42", username := some "alice" },
   P4.Op.refundPayment "o1" (some 30) gwYes]

/-- C8 (amended) witness: the amended invariant applied to the concrete
store and operation sequence. -/
theorem c8_amended_witness :
    P4.dbNonNeg (c8ops.foldl (P4.applyOp "pw" (some "TK") 7) (p4Db "NEW" 0)) :=
  c8_amended_balances_nonneg "pw" (some "TK") 7 (p4Db "NEW" 0) c8ops
    (by unfold P4.dbNonNeg; decide) (by decide)
